import Mathlib

/-!
Verification of the point-to-point message protocol and the node-aware
communicator of `chainermn/communicators/_base.py`, via a shallow embedding.

Modelling conventions:
* Array elements travel opaquely through the bulk channel; the protocol fixes
  the element type to 32-bit floats and never computes with them, so an
  element is modelled by its bit pattern (`F32 := Nat`).
* A numpy array is its shape together with its flat (row-major) contents.
* Python exceptions are an explicit error type; a function that can raise
  returns `Except PyError _`.
* The MPI channel between one (sender, receiver, tag) triple is a FIFO list
  of packets; `send` produces the list of transport operations it performs,
  in order, and `recv` consumes packets from the front of the list.  mpi4py's
  pickle-based `send`/`recv` (used for the header) and buffer-based
  `Send`/`Recv` (used for the bulk data) share MPI's point-to-point matching,
  so one queue per (source, tag) is faithful.
* `numpy.empty` allocates a buffer of the requested length with unspecified
  contents; it is modelled by an explicit oracle `contents : Nat → Nat → F32`
  giving the garbage found in a fresh allocation of a given length.
* External collaborators that are consumed but not defined in `_base.py`
  (`MPI_Comm_Split`, `_communication_utility.init_ranks` / `init_comms`)
  are passed in as explicit function parameters, so every theorem quantifies
  over their behaviour.
-/

/-- Bit pattern of one 32-bit float element.  The protocol moves elements
opaquely (no arithmetic), so any carrier works. -/
abbrev F32 := Nat

/-- A numpy array of the protocol's fixed float32 dtype: its shape and its
flat row-major contents. -/
structure NdArray where
  shape : List Nat
  data : List F32
deriving DecidableEq

/-- `a.ndim`: numpy's number of dimensions, the length of the shape. -/
def NdArray.ndim (a : NdArray) : Nat := a.shape.length

/-- The Python values that can reach the protocol: numpy arrays, plain
integers (neither array nor iterable), strings (iterables of one-character
strings), and list/tuple containers (sized iterables). -/
inductive PyVal where
  | ndarray (a : NdArray)
  | pyint (n : Int)
  | pystr (s : String)
  | pytuple (xs : List PyVal)

/-- The Python exceptions the embedded code can raise, plus the two ways an
MPI receive can go wrong in the channel model (`mpiTruncate`: incoming
message longer than the posted buffer; `blocked`: no matching message, the
unbounded block of a peer that never sends). -/
inductive PyError where
  | valueError (msg : String)
  | attributeError (attr : String)
  | assertionError
  | typeError (msg : String)
  | runtimeError (msg : String)
  | mpiTruncate
  | blocked
deriving DecidableEq

/-- `isinstance(obj, numpy.ndarray)`. -/
def isNdArrayb : PyVal → Bool
  | .ndarray _ => true
  | _ => false

/-- Iterating a Python value: `collections.Iterable` membership, for the
values of the model that are iterable but are not numpy arrays.  A string
iterates into its one-character strings; a list/tuple into its elements. -/
def pyIter : PyVal → Option (List PyVal)
  | .pytuple xs => some xs
  | .pystr s => some (s.toList.map fun c => .pystr (String.mk [c]))
  | _ => none

/-- `x.ndim`: raises `AttributeError` on anything that is not an array. -/
def ndimOf : PyVal → Except PyError Nat
  | .ndarray a => .ok a.ndim
  | _ => .error (.attributeError "ndim")

/-- `x.shape`: raises `AttributeError` on anything that is not an array. -/
def shapeOf : PyVal → Except PyError (List Nat)
  | .ndarray a => .ok a.shape
  | _ => .error (.attributeError "shape")

/-- The comprehension `[x.ndim for x in obj]`: stops at the first element
without an `ndim` attribute. -/
def ndimsOf : List PyVal → Except PyError (List Nat)
  | [] => .ok []
  | x :: xs =>
      match ndimOf x with
      | .error e => .error e
      | .ok n =>
          match ndimsOf xs with
          | .error e => .error e
          | .ok ns => .ok (n :: ns)

/-- The comprehension `[x.shape for x in obj]`. -/
def shapesOf : List PyVal → Except PyError (List (List Nat))
  | [] => .ok []
  | x :: xs =>
      match shapeOf x with
      | .error e => .error e
      | .ok s =>
          match shapesOf xs with
          | .error e => .error e
          | .ok ss => .ok (s :: ss)

/-- The message descriptor built by `_MessageType.__init__`: whether the
payload was a tuple, the number of arrays (`narr`), their dimensionalities
and their shapes. -/
structure MessageType where
  is_tuple : Bool
  narr : Nat
  ndims : List Nat
  shapes : List (List Nat)
deriving DecidableEq

/-- The iterable branch of `_MessageType.__init__`: `narr = len(obj)`,
`ndims = [x.ndim for x in obj]`, `shapes = [x.shape for x in obj]`. -/
def mkTupleType (xs : List PyVal) : Except PyError MessageType :=
  match ndimsOf xs with
  | .error e => .error e
  | .ok nd =>
      match shapesOf xs with
      | .error e => .error e
      | .ok sh => .ok { is_tuple := true, narr := xs.length, ndims := nd, shapes := sh }

/-- `_MessageType.__init__(obj)`: a numpy array gives a single-array
descriptor; any other iterable is taken as a tuple and its elements'
`ndim`/`shape` attributes are read; anything else raises
`ValueError('Message object should be numpy array or tuple.')`. -/
def mkMessageType (obj : PyVal) : Except PyError MessageType :=
  match obj with
  | .ndarray a => .ok { is_tuple := false, narr := 1, ndims := [a.ndim], shapes := [a.shape] }
  | _ =>
    match pyIter obj with
    | some xs => mkTupleType xs
    | none => .error (.valueError "Message object should be numpy array or tuple.")

/-- One message on the wire: the pickled descriptor (header channel) or one
array's raw contents (bulk channel). -/
inductive Packet where
  | header (m : MessageType)
  | bulk (data : List F32)
deriving DecidableEq

/-- One transport operation performed by `send`, with its addressing. -/
structure Op where
  packet : Packet
  dest : Nat
  tag : Nat
deriving DecidableEq

/-- `_memory_utility.array_to_buffer_object(x)`: the contiguous byte view of
an array; fails on a value with no buffer. -/
def bulkOf : PyVal → Except PyError (List F32)
  | .ndarray a => .ok a.data
  | _ => .error (.attributeError "buffer")

/-- The bulk loop of `send`: for every array, in order, stage its buffer and
issue one `mpi_comm.Send` to (dest, tag).  (The device-stream synchronize for
accelerator arrays has no observable effect in this model.) -/
def sendArrays (dest tag : Nat) : List PyVal → List Op × Except PyError Unit
  | [] => ([], .ok ())
  | x :: xs =>
      match bulkOf x with
      | .error e => ([], .error e)
      | .ok d =>
          let r := sendArrays dest tag xs
          (⟨.bulk d, dest, tag⟩ :: r.1, r.2)

/-- `CommunicatorBase.send(obj, dest, tag)`: build the descriptor (raising
before any transport on a bad payload), send it through the header channel,
normalize the payload to a sequence of arrays (a single array becomes a
one-element sequence), then send one bulk transfer per array.  Returns the
ordered list of transport operations performed and the outcome. -/
def send (obj : PyVal) (dest tag : Nat) : List Op × Except PyError Unit :=
  match mkMessageType obj with
  | .error e => ([], .error e)
  | .ok m =>
      let arrays := if m.is_tuple then (pyIter obj).getD [] else [obj]
      let r := sendArrays dest tag arrays
      (⟨.header m, dest, tag⟩ :: r.1, r.2)

/-- `numpy.empty(n, dtype=numpy.float32)`: a fresh buffer of length `n` whose
contents are unspecified; the oracle supplies them. -/
def numpyEmpty (contents : Nat → Nat → F32) (n : Nat) : List F32 :=
  (List.range n).map (contents n)

/-- `mpi_comm.Recv(buf, ...)` consuming an incoming bulk message: the
message's elements land at the front of the buffer, the rest of the buffer
keeps its old contents; a message longer than the buffer is an MPI
truncation error. -/
def mpiRecvInto (buf incoming : List F32) : Except PyError (List F32) :=
  if incoming.length ≤ buf.length then .ok (incoming ++ buf.drop incoming.length)
  else .error .mpiTruncate

/-- `buf.reshape(shape)`: succeeds exactly when the element count matches. -/
def reshape (buf : List F32) (shape : List Nat) : Except PyError NdArray :=
  if buf.length = shape.prod then .ok ⟨shape, buf⟩
  else .error (.valueError "cannot reshape")

/-- The receive loop of `recv` (`for shape in msgtype.shapes`): per declared
shape, allocate `numpy.empty(numpy.prod(shape), dtype=numpy.float32)`,
receive one bulk transfer into it, reshape to the declared shape.  Returns
the arrays and the unconsumed rest of the channel. -/
def recvArrays (contents : Nat → Nat → F32) :
    List (List Nat) → List Packet → Except PyError (List NdArray × List Packet)
  | [], ps => .ok ([], ps)
  | shape :: rest, ps =>
      match ps with
      | .bulk d :: ps1 =>
          match mpiRecvInto (numpyEmpty contents shape.prod) d with
          | .error e => .error e
          | .ok filled =>
              match reshape filled shape with
              | .error e => .error e
              | .ok a =>
                  match recvArrays contents rest ps1 with
                  | .error e => .error e
                  | .ok pr => .ok (a :: pr.1, pr.2)
      | _ => .error .blocked

/-- `CommunicatorBase.recv(source, tag)` on the channel content `ps` for that
(source, tag): receive the descriptor from the header channel; if it declares
a tuple, receive and reshape each declared array and return them as a tuple;
otherwise assert exactly one declared array and return it alone. -/
def recv (contents : Nat → Nat → F32) (ps : List Packet) : Except PyError PyVal :=
  match ps with
  | .header m :: rest =>
      if m.is_tuple then
        match recvArrays contents m.shapes rest with
        | .error e => .error e
        | .ok pr => .ok (.pytuple (pr.1.map PyVal.ndarray))
      else
        match m.shapes with
        | [shape] =>
            match rest with
            | .bulk d :: _ =>
                match mpiRecvInto (numpyEmpty contents shape.prod) d with
                | .error e => .error e
                | .ok filled =>
                    match reshape filled shape with
                    | .error e => .error e
                    | .ok a => .ok (.ndarray a)
            | _ => .error .blocked
        | _ => .error .assertionError
  | _ => .error .blocked

/-- A handle to an mpi4py communicator, as far as `_base.py` reads it:
its rank and size.  (Its other operations are passed in as parameters.) -/
structure MpiComm where
  rank : Nat
  size : Nat
deriving DecidableEq

/-- The attribute state of a `NodeAwareCommunicatorBase` object.  The scope
communicators built by `_communication_utility.init_comms` are opaque
handles (`Nat`); a field holds `none` while the corresponding communicator
is still uninitialized.  (`intra_nccl_comm` is only ever read when
`use_nccl` is set, matching the conditional attribute in the source.) -/
structure NodeAwareComm where
  mpi_comm : MpiComm
  use_nccl : Bool
  intra_rank : Nat
  intra_size : Nat
  inter_rank : Nat
  inter_size : Nat
  inter_mpi_comm : Option Nat
  intra_mpi_comm : Option Nat
  intra_nccl_comm : Option Nat
deriving DecidableEq

/-- `NodeAwareCommunicatorBase.__init__(mpi_comm, use_nccl)`.  The NCCL
availability probe (`nccl._available`) is the boolean `nccl_available`; the
topology discovery `_communication_utility.init_ranks` is the parameter
`init_ranks`, returning `(global rank, intra_rank, intra_size, inter_rank,
inter_size)`.  If NCCL is requested but unavailable, raise `RuntimeError`
before anything else; otherwise run `_init_ranks` (which asserts the first
entry equals `mpi_comm.rank`) and leave every scope communicator
uninitialized (`None`). -/
def nodeAwareInit (nccl_available : Bool)
    (init_ranks : MpiComm → Nat × Nat × Nat × Nat × Nat)
    (mpi_comm : MpiComm) (use_nccl : Bool) : Except PyError NodeAwareComm :=
  if use_nccl && !nccl_available then
    .error (.runtimeError "NCCL is not available.")
  else
    let r := init_ranks mpi_comm
    if r.1 = mpi_comm.rank then
      .ok { mpi_comm := mpi_comm, use_nccl := use_nccl,
            intra_rank := r.2.1, intra_size := r.2.2.1,
            inter_rank := r.2.2.2.1, inter_size := r.2.2.2.2,
            inter_mpi_comm := none, intra_mpi_comm := none,
            intra_nccl_comm := none }
    else .error .assertionError

/-- `NodeAwareCommunicatorBase._init_comms`.  The external scope builder
`_communication_utility.init_comms` is the parameter `init_comms`, returning
handles `(intra_mpi_comm, inter_mpi_comm, intra_nccl_comm)`.  If the scopes
already exist, assert consistency and return without rebuilding; otherwise
build them all from the discovered topology. -/
def initComms (init_comms : MpiComm → Nat → Nat → Nat → Bool → Nat × Nat × Nat)
    (c : NodeAwareComm) : Except PyError NodeAwareComm :=
  if c.inter_mpi_comm ≠ none then
    if c.intra_mpi_comm = none then .error .assertionError
    else if c.use_nccl = true ∧ c.intra_nccl_comm = none then .error .assertionError
    else .ok c
  else
    .ok { c with
          intra_mpi_comm :=
            some (init_comms c.mpi_comm c.intra_rank c.intra_size c.inter_rank c.use_nccl).1,
          inter_mpi_comm :=
            some (init_comms c.mpi_comm c.intra_rank c.intra_size c.inter_rank c.use_nccl).2.1,
          intra_nccl_comm :=
            if c.use_nccl = true then
              some (init_comms c.mpi_comm c.intra_rank c.intra_size c.inter_rank c.use_nccl).2.2
            else c.intra_nccl_comm }

/-- A communicator object together with its runtime class: an instance of
`CommunicatorBase` (whose state is just `mpi_comm`) or of
`NodeAwareCommunicatorBase`. -/
inductive PyCommObj where
  | base (mpi_comm : MpiComm)
  | nodeAware (c : NodeAwareComm)
deriving DecidableEq

/-- `self.mpi_comm`. -/
def PyCommObj.mpiComm : PyCommObj → MpiComm
  | .base m => m
  | .nodeAware c => c.mpi_comm

/-- The call `self.__class__(mpi_comm=granted)` made by `split`, with the
single keyword argument `mpi_comm`.  When `self` is a `CommunicatorBase`
this runs `CommunicatorBase.__init__`; when `self` is a
`NodeAwareCommunicatorBase`, whose `__init__` also requires the positional
argument `use_nccl`, Python raises `TypeError` before any constructor body
runs. -/
def callClassMpiCommOnly : PyCommObj → MpiComm → Except PyError PyCommObj
  | .base _, m => .ok (.base m)
  | .nodeAware _, _ =>
      .error (.typeError "__init__() missing 1 required positional argument: use_nccl")

/-- `CommunicatorBase.split(color, key)`:
`self.__class__(mpi_comm=self.mpi_comm.Split(color, key))`.  The external
`MPI_Comm_Split` is the parameter `mpiSplit`. -/
def split (mpiSplit : MpiComm → Int → Int → MpiComm)
    (c : PyCommObj) (color key : Int) : Except PyError PyCommObj :=
  callClassMpiCommOnly c (mpiSplit c.mpiComm color key)


/-- The array behind a value, for values already known to be arrays. -/
def arrOf : PyVal → NdArray
  | .ndarray a => a
  | _ => ⟨[], []⟩

/-- An array value whose flat contents match its shape (a rectangular
numpy array always does: its buffer has `prod(shape)` elements). -/
def validArrayb : PyVal → Bool
  | .ndarray a => a.data.length == a.shape.prod
  | _ => false

/-- A payload in the protocol's round-trip domain: a single rectangular
array, or a tuple of rectangular arrays. -/
def validPayloadb : PyVal → Bool
  | .ndarray a => a.data.length == a.shape.prod
  | .pytuple xs => xs.all validArrayb
  | _ => false

/-- Declared shapes matched pointwise by bulk transfers of the right size. -/
def matchedb : List (List Nat) → List (List F32) → Bool
  | [], [] => true
  | s :: ss, d :: ds => (d.length == s.prod) && matchedb ss ds
  | _ :: _, [] => false
  | [], _ :: _ => false

/-- Each shape's length equals the corresponding dims entry. -/
def dimsAlignedb : List Nat → List (List Nat) → Bool
  | [], [] => true
  | n :: ns, s :: ss => (s.length == n) && dimsAlignedb ns ss
  | _ :: _, [] => false
  | [], _ :: _ => false

lemma numpyEmpty_length (contents : Nat → Nat → F32) (n : Nat) :
    (numpyEmpty contents n).length = n := by
  simp [numpyEmpty]

lemma mpiRecvInto_exact (buf d : List F32) (h : d.length = buf.length) :
    mpiRecvInto buf d = .ok d := by
  simp [mpiRecvInto, h, List.drop_length]

lemma isNdArrayb_eq_true {x : PyVal} (h : isNdArrayb x = true) :
    ∃ a, x = .ndarray a := by
  cases x
  case ndarray a => exact ⟨a, rfl⟩
  all_goals simp [isNdArrayb] at h

lemma validArrayb_isNdArrayb {x : PyVal} (h : validArrayb x = true) :
    isNdArrayb x = true := by
  cases x <;> simp [validArrayb, isNdArrayb] at h ⊢

lemma validArrayb_length {a : NdArray} (h : validArrayb (.ndarray a) = true) :
    a.data.length = a.shape.prod := by
  simpa [validArrayb] using h

lemma ndimsOf_all_arrays (xs : List PyVal) (h : ∀ x ∈ xs, isNdArrayb x = true) :
    ndimsOf xs = .ok (xs.map fun x => (arrOf x).ndim) := by
  induction xs with
  | nil => rfl
  | cons x xs ih =>
      obtain ⟨a, rfl⟩ := isNdArrayb_eq_true (h x (List.mem_cons_self x xs))
      simp [ndimsOf, ndimOf, arrOf, ih fun y hy => h y (List.mem_cons_of_mem _ hy)]

lemma shapesOf_all_arrays (xs : List PyVal) (h : ∀ x ∈ xs, isNdArrayb x = true) :
    shapesOf xs = .ok (xs.map fun x => (arrOf x).shape) := by
  induction xs with
  | nil => rfl
  | cons x xs ih =>
      obtain ⟨a, rfl⟩ := isNdArrayb_eq_true (h x (List.mem_cons_self x xs))
      simp [shapesOf, shapeOf, arrOf, ih fun y hy => h y (List.mem_cons_of_mem _ hy)]

lemma ndimsOf_ok_all (xs : List PyVal) (nd : List Nat) (h : ndimsOf xs = .ok nd) :
    ∀ x ∈ xs, isNdArrayb x = true := by
  induction xs generalizing nd with
  | nil => simp
  | cons x xs ih =>
      intro y hy
      unfold ndimsOf at h
      cases hx : ndimOf x with
      | error e => rw [hx] at h; simp at h
      | ok n =>
          rw [hx] at h
          cases hxs : ndimsOf xs with
          | error e => rw [hxs] at h; simp at h
          | ok ns =>
              rcases List.mem_cons.1 hy with rfl | hy2
              · cases y with
                | ndarray a => rfl
                | pyint n => simp [ndimOf] at hx
                | pystr s => simp [ndimOf] at hx
                | pytuple ts => simp [ndimOf] at hx
              · exact ih ns hxs y hy2

lemma mkTupleType_all_arrays (xs : List PyVal) (h : ∀ x ∈ xs, isNdArrayb x = true) :
    mkTupleType xs = .ok { is_tuple := true, narr := xs.length,
                           ndims := xs.map fun x => (arrOf x).ndim,
                           shapes := xs.map fun x => (arrOf x).shape } := by
  simp [mkTupleType, ndimsOf_all_arrays xs h, shapesOf_all_arrays xs h]

lemma mkTupleType_ok_inv (xs : List PyVal) (m : MessageType)
    (h : mkTupleType xs = .ok m) :
    (∀ x ∈ xs, isNdArrayb x = true) ∧
      m = { is_tuple := true, narr := xs.length,
            ndims := xs.map fun x => (arrOf x).ndim,
            shapes := xs.map fun x => (arrOf x).shape } := by
  have hall : ∀ x ∈ xs, isNdArrayb x = true := by
    unfold mkTupleType at h
    cases hnd : ndimsOf xs with
    | error e => rw [hnd] at h; simp at h
    | ok nd => exact ndimsOf_ok_all xs nd hnd
  refine ⟨hall, ?_⟩
  rw [mkTupleType_all_arrays xs hall] at h
  exact (Except.ok.inj h).symm

lemma sendArrays_all_arrays (dest tag : Nat) (xs : List PyVal)
    (h : ∀ x ∈ xs, isNdArrayb x = true) :
    sendArrays dest tag xs =
      (xs.map fun x => ⟨.bulk (arrOf x).data, dest, tag⟩, .ok ()) := by
  induction xs with
  | nil => rfl
  | cons x xs ih =>
      obtain ⟨a, rfl⟩ := isNdArrayb_eq_true (h x (List.mem_cons_self x xs))
      simp [sendArrays, bulkOf, arrOf, ih fun y hy => h y (List.mem_cons_of_mem _ hy)]

lemma matchedb_of_valid (xs : List PyVal) (h : ∀ x ∈ xs, validArrayb x = true) :
    matchedb (xs.map fun x => (arrOf x).shape) (xs.map fun x => (arrOf x).data) = true := by
  induction xs with
  | nil => rfl
  | cons x xs ih =>
      obtain ⟨a, rfl⟩ := isNdArrayb_eq_true (validArrayb_isNdArrayb (h x (List.mem_cons_self x xs)))
      have hl := validArrayb_length (h _ (List.mem_cons_self _ xs))
      have ih2 := ih fun y hy => h y (List.mem_cons_of_mem _ hy)
      simp only [List.map_cons, arrOf, matchedb, Bool.and_eq_true, beq_iff_eq]
      exact ⟨hl, ih2⟩

lemma recvArrays_matched (contents : Nat → Nat → F32) (ss : List (List Nat))
    (ds : List (List F32)) (rest : List Packet) (h : matchedb ss ds = true) :
    recvArrays contents ss (ds.map Packet.bulk ++ rest) =
      .ok (List.zipWith (fun s d => NdArray.mk s d) ss ds, rest) := by
  induction ss generalizing ds with
  | nil =>
      cases ds with
      | nil => simp [recvArrays]
      | cons d ds => simp [matchedb] at h
  | cons s ss ih =>
      cases ds with
      | nil => simp [matchedb] at h
      | cons d ds =>
          rw [matchedb, Bool.and_eq_true, beq_iff_eq] at h
          obtain ⟨h1, h2⟩ := h
          have hrecv : mpiRecvInto (numpyEmpty contents s.prod) d = .ok d :=
            mpiRecvInto_exact _ _ (by simp [numpyEmpty_length, h1])
          simp [recvArrays, hrecv, reshape, h1, ih ds h2]

lemma zipWith_mk_arrOf (xs : List PyVal) :
    List.zipWith (fun s d => NdArray.mk s d)
        (xs.map fun x => (arrOf x).shape) (xs.map fun x => (arrOf x).data) =
      xs.map arrOf := by
  induction xs with
  | nil => rfl
  | cons x xs ih => simp [ih]

lemma map_ndarray_arrOf (xs : List PyVal) (h : ∀ x ∈ xs, isNdArrayb x = true) :
    (xs.map arrOf).map PyVal.ndarray = xs := by
  induction xs with
  | nil => rfl
  | cons x xs ih =>
      obtain ⟨a, rfl⟩ := isNdArrayb_eq_true (h x (List.mem_cons_self x xs))
      simp [arrOf, ih fun y hy => h y (List.mem_cons_of_mem _ hy)]

lemma mkTupleType_head_nonarray (xs : List PyVal) (hne : xs ≠ [])
    (hnoarr : ∀ x ∈ xs, isNdArrayb x = false) :
    mkTupleType xs = .error (.attributeError "ndim") := by
  cases xs with
  | nil => exact absurd rfl hne
  | cons x xs =>
      have hx := hnoarr x (List.mem_cons_self x xs)
      cases x with
      | ndarray a => simp [isNdArrayb] at hx
      | pyint n => rfl
      | pystr s => rfl
      | pytuple ts => rfl

lemma dimsAlignedb_maps (xs : List PyVal) :
    dimsAlignedb (xs.map fun x => (arrOf x).ndim) (xs.map fun x => (arrOf x).shape) = true := by
  induction xs with
  | nil => rfl
  | cons x xs ih =>
      simp only [List.map_cons, dimsAlignedb, Bool.and_eq_true, beq_iff_eq]
      exact ⟨rfl, ih⟩

lemma mkTupleType_invariants (xs : List PyVal) (m : MessageType)
    (h : mkTupleType xs = .ok m) :
    m.ndims.length = m.narr ∧ m.shapes.length = m.narr ∧
      dimsAlignedb m.ndims m.shapes = true := by
  obtain ⟨hall, rfl⟩ := mkTupleType_ok_inv xs m h
  exact ⟨by simp, by simp, dimsAlignedb_maps xs⟩

lemma mkMessageType_ok_inv (obj : PyVal) (m : MessageType)
    (h : mkMessageType obj = .ok m) :
    (∃ a, obj = .ndarray a ∧
       m = { is_tuple := false, narr := 1, ndims := [a.ndim], shapes := [a.shape] }) ∨
    (∃ xs, pyIter obj = some xs ∧ (∀ x ∈ xs, isNdArrayb x = true) ∧
       m = { is_tuple := true, narr := xs.length,
             ndims := xs.map fun x => (arrOf x).ndim,
             shapes := xs.map fun x => (arrOf x).shape }) := by
  cases obj with
  | ndarray a => exact Or.inl ⟨a, rfl, (Except.ok.inj h).symm⟩
  | pyint n => simp [mkMessageType, pyIter] at h
  | pystr s =>
      have h2 : mkTupleType (s.toList.map fun c => PyVal.pystr (String.mk [c])) = .ok m := h
      exact Or.inr ⟨_, rfl, mkTupleType_ok_inv _ m h2⟩
  | pytuple xs =>
      have h2 : mkTupleType xs = .ok m := h
      exact Or.inr ⟨xs, rfl, mkTupleType_ok_inv xs m h2⟩

/-- C5: a payload that is neither a numpy array nor an iterable container
(for example a plain integer) makes descriptor construction raise the
protocol's invalid-payload error
(`ValueError('Message object should be numpy array or tuple.')`), and `send`
propagates it having performed no transport operation at all (its trace of
header/bulk transfers is empty). -/
theorem c5_invalid_payload_fails_before_transport (obj : PyVal) (dest tag : Nat)
    (h1 : isNdArrayb obj = false) (h2 : pyIter obj = none) :
    mkMessageType obj =
      .error (.valueError "Message object should be numpy array or tuple.") ∧
    send obj dest tag =
      ([], .error (.valueError "Message object should be numpy array or tuple.")) := by
  cases obj with
  | ndarray a => simp [isNdArrayb] at h1
  | pyint n => exact ⟨rfl, rfl⟩
  | pystr s => simp [pyIter] at h2
  | pytuple xs => simp [pyIter] at h2

theorem c5_witness :
    isNdArrayb (.pyint 3) = false ∧ pyIter (.pyint 3) = none ∧
    mkMessageType (.pyint 3) =
      .error (.valueError "Message object should be numpy array or tuple.") ∧
    send (.pyint 3) 0 0 =
      ([], .error (.valueError "Message object should be numpy array or tuple.")) :=
  ⟨rfl, rfl, c5_invalid_payload_fails_before_transport (.pyint 3) 0 0 rfl rfl⟩

/-- C10: a nonempty iterable whose elements are not numpy arrays (a string,
a list of plain integers) passes the payload-kind check as a tuple (it is
not rejected with the invalid-payload ValueError), and descriptor
construction then raises `AttributeError` reading the first element's
`ndim`; `send` propagates this with no transport operation performed. -/
theorem c10_nonarray_iterable_attribute_error (obj : PyVal) (xs : List PyVal)
    (dest tag : Nat) (hiter : pyIter obj = some xs) (hne : xs ≠ [])
    (hnoarr : ∀ x ∈ xs, isNdArrayb x = false) :
    mkMessageType obj = .error (.attributeError "ndim") ∧
    send obj dest tag = ([], .error (.attributeError "ndim")) := by
  have htt := mkTupleType_head_nonarray xs hne hnoarr
  have hm : mkMessageType obj = .error (.attributeError "ndim") := by
    cases obj with
    | ndarray a => simp [pyIter] at hiter
    | pyint n => simp [pyIter] at hiter
    | pystr s =>
        unfold mkMessageType
        rw [show pyIter (PyVal.pystr s) = some xs from hiter]
        exact htt
    | pytuple ys =>
        unfold mkMessageType
        rw [show pyIter (PyVal.pytuple ys) = some xs from hiter]
        exact htt
  exact ⟨hm, by simp [send, hm]⟩

theorem c10_witness :
    mkMessageType (.pytuple [.pyint 1, .pyint 2]) = .error (.attributeError "ndim") ∧
    send (.pytuple [.pyint 1, .pyint 2]) 0 1 = ([], .error (.attributeError "ndim")) :=
  c10_nonarray_iterable_attribute_error (.pytuple [.pyint 1, .pyint 2])
    [.pyint 1, .pyint 2] 0 1 rfl (by simp) (by decide)

/-- C3 counterexample: the claim `arrayCount >= 1` fails on the code.  The
empty tuple is accepted by `_MessageType.__init__` (an empty iterable passes
the `collections.Iterable` check) and yields a descriptor with
`narr = 0`. -/
theorem c3_counterexample_empty_tuple :
    mkMessageType (.pytuple []) =
      .ok { is_tuple := true, narr := 0, ndims := [], shapes := [] } ∧
    ¬ 1 ≤ (MessageType.mk true 0 [] []).narr :=
  ⟨rfl, by decide⟩

/-- C3 (amended): every descriptor the construction accepts satisfies
`len(dims) = len(shapes) = arrayCount` with each shape's length equal to the
corresponding dims entry, and a single-array payload gives
`isTuple = false` and `arrayCount = 1`; but `arrayCount >= 1` does not hold
in general — an empty iterable payload is accepted with `arrayCount = 0`. -/
theorem c3_descriptor_invariants (obj : PyVal) (m : MessageType)
    (h : mkMessageType obj = .ok m) :
    m.ndims.length = m.narr ∧ m.shapes.length = m.narr ∧
    dimsAlignedb m.ndims m.shapes = true ∧
    (∀ a, obj = .ndarray a → m.is_tuple = false ∧ m.narr = 1) := by
  rcases mkMessageType_ok_inv obj m h with ⟨a, rfl, rfl⟩ | ⟨xs, hiter, hall, rfl⟩
  · refine ⟨rfl, rfl, ?_, fun b hb => ⟨rfl, rfl⟩⟩
    simp [dimsAlignedb, NdArray.ndim]
  · refine ⟨by simp, by simp, dimsAlignedb_maps xs, ?_⟩
    intro a ha
    rw [ha] at hiter
    simp [pyIter] at hiter

theorem c3_witness :
    mkMessageType (.ndarray ⟨[2, 3], [0, 1, 2, 3, 4, 5]⟩) =
      .ok { is_tuple := false, narr := 1, ndims := [2], shapes := [[2, 3]] } ∧
    ((MessageType.mk false 1 [2] [[2, 3]]).ndims.length =
        (MessageType.mk false 1 [2] [[2, 3]]).narr ∧
      (MessageType.mk false 1 [2] [[2, 3]]).shapes.length =
        (MessageType.mk false 1 [2] [[2, 3]]).narr ∧
      dimsAlignedb (MessageType.mk false 1 [2] [[2, 3]]).ndims
          (MessageType.mk false 1 [2] [[2, 3]]).shapes = true ∧
      (∀ a, (PyVal.ndarray ⟨[2, 3], [0, 1, 2, 3, 4, 5]⟩ : PyVal) = .ndarray a →
        (MessageType.mk false 1 [2] [[2, 3]]).is_tuple = false ∧
        (MessageType.mk false 1 [2] [[2, 3]]).narr = 1)) :=
  ⟨rfl, c3_descriptor_invariants (.ndarray ⟨[2, 3], [0, 1, 2, 3, 4, 5]⟩) _ rfl⟩

/-- C2 (code bug): `split` evaluates
`self.__class__(mpi_comm=self.mpi_comm.Split(color, key))`, passing only the
keyword argument `mpi_comm`.  On an instance of `NodeAwareCommunicatorBase`
— whose `__init__` requires a second argument `use_nccl` — this call raises
`TypeError`, so `split` never returns a new communicator for the node-aware
class, whatever `MPI_Comm_Split` would have returned. -/
theorem c2_split_node_aware_type_error :
    split (fun m _ _ => m)
        (.nodeAware { mpi_comm := ⟨0, 2⟩, use_nccl := false, intra_rank := 0,
                      intra_size := 2, inter_rank := 0, inter_size := 1,
                      inter_mpi_comm := none, intra_mpi_comm := none,
                      intra_nccl_comm := none }) 0 0 =
      .error (.typeError "__init__() missing 1 required positional argument: use_nccl") :=
  rfl

/-- C6: `_init_comms` is idempotent.  If one call succeeded (whatever the
external `_communication_utility.init_comms` returned), a second call on the
resulting state takes the early-return guard: it raises nothing, rebuilds
nothing, and leaves the intra-node, inter-node and NCCL scope handles
exactly as the first call left them. -/
theorem c6_init_comms_idempotent
    (init_comms : MpiComm → Nat → Nat → Nat → Bool → Nat × Nat × Nat)
    (c c2 : NodeAwareComm) (h : initComms init_comms c = .ok c2) :
    initComms init_comms c2 = .ok c2 := by
  have key : ∀ d : NodeAwareComm, d.inter_mpi_comm ≠ none → ¬ d.intra_mpi_comm = none →
      ¬(d.use_nccl = true ∧ d.intra_nccl_comm = none) →
      initComms init_comms d = .ok d := by
    intro d h1 h2 h3
    unfold initComms
    rw [if_pos h1, if_neg h2, if_neg h3]
  unfold initComms at h
  split_ifs at h with hA hB hC <;>
    first
      | exact Except.noConfusion h
      | (obtain rfl := Except.ok.inj h
         exact key _ (by first | assumption | simp_all)
           (by first | assumption | simp_all) (by first | assumption | simp_all))

theorem c6_witness :
    initComms (fun _ _ _ _ _ => (10, 20, 30))
        { mpi_comm := ⟨0, 2⟩, use_nccl := true, intra_rank := 0, intra_size := 2,
          inter_rank := 0, inter_size := 1, inter_mpi_comm := some 20,
          intra_mpi_comm := some 10, intra_nccl_comm := some 30 } =
      .ok { mpi_comm := ⟨0, 2⟩, use_nccl := true, intra_rank := 0, intra_size := 2,
            inter_rank := 0, inter_size := 1, inter_mpi_comm := some 20,
            intra_mpi_comm := some 10, intra_nccl_comm := some 30 } :=
  c6_init_comms_idempotent (fun _ _ _ _ _ => (10, 20, 30))
    { mpi_comm := ⟨0, 2⟩, use_nccl := true, intra_rank := 0, intra_size := 2,
      inter_rank := 0, inter_size := 1, inter_mpi_comm := none,
      intra_mpi_comm := none, intra_nccl_comm := none } _ rfl

/-- C7: if NCCL collectives are requested but the library is unavailable,
`NodeAwareCommunicatorBase.__init__` raises `RuntimeError` immediately —
before topology discovery, so the outcome does not depend on the
`init_ranks` implementation at all and no state is built; otherwise the
constructor runs topology discovery eagerly (the rank fields come from
`init_ranks`, whose first component must equal the communicator's rank) and
leaves every hierarchical scope unbuilt (`None`). -/
theorem c7_nccl_fail_fast (nccl_available : Bool) (mpi : MpiComm) (use_nccl : Bool) :
    (use_nccl = true → nccl_available = false →
      ∀ f g : MpiComm → Nat × Nat × Nat × Nat × Nat,
        nodeAwareInit nccl_available f mpi use_nccl =
          nodeAwareInit nccl_available g mpi use_nccl ∧
        nodeAwareInit nccl_available f mpi use_nccl =
          .error (.runtimeError "NCCL is not available.")) ∧
    (∀ (f : MpiComm → Nat × Nat × Nat × Nat × Nat) (a b c d : Nat),
      (use_nccl = false ∨ nccl_available = true) →
      f mpi = (mpi.rank, a, b, c, d) →
      nodeAwareInit nccl_available f mpi use_nccl =
        .ok { mpi_comm := mpi, use_nccl := use_nccl, intra_rank := a,
              intra_size := b, inter_rank := c, inter_size := d,
              inter_mpi_comm := none, intra_mpi_comm := none,
              intra_nccl_comm := none }) := by
  constructor
  · rintro rfl rfl f g
    exact ⟨rfl, rfl⟩
  · rintro f a b c d hok hf
    have hcond : (use_nccl && !nccl_available) = false := by
      rcases hok with rfl | rfl <;> simp
    simp [nodeAwareInit, hcond, hf]

theorem c7_witness :
    nodeAwareInit false (fun _ => (0, 1, 2, 3, 4)) ⟨0, 4⟩ true =
      .error (.runtimeError "NCCL is not available.") ∧
    nodeAwareInit true (fun _ => (0, 1, 2, 3, 4)) ⟨0, 4⟩ true =
      .ok { mpi_comm := ⟨0, 4⟩, use_nccl := true, intra_rank := 1, intra_size := 2,
            inter_rank := 3, inter_size := 4, inter_mpi_comm := none,
            intra_mpi_comm := none, intra_nccl_comm := none } :=
  ⟨((c7_nccl_fail_fast false ⟨0, 4⟩ true).1 rfl rfl (fun _ => (0, 1, 2, 3, 4))
      (fun _ => (0, 1, 2, 3, 4))).2,
   (c7_nccl_fail_fast true ⟨0, 4⟩ true).2 (fun _ => (0, 1, 2, 3, 4)) 1 2 3 4
     (Or.inr rfl) rfl⟩

/-- C9: on a header declaring a non-tuple, `recv` asserts that exactly one
array was declared — any other count raises `AssertionError` before any
allocation or transfer — and returns the single reshaped array; on a header
declaring a tuple, it returns the reshaped arrays as a tuple, in descriptor
order. -/
theorem c9_recv_structure (contents : Nat → Nat → F32) (m : MessageType)
    (rest : List Packet) :
    (m.is_tuple = false → m.shapes.length ≠ 1 →
      recv contents (.header m :: rest) = .error .assertionError) ∧
    (∀ shape d rest2, m.is_tuple = false → m.shapes = [shape] →
      rest = .bulk d :: rest2 → d.length = shape.prod →
      recv contents (.header m :: rest) = .ok (.ndarray ⟨shape, d⟩)) ∧
    (∀ ds, m.is_tuple = true → matchedb m.shapes ds = true →
      rest = ds.map Packet.bulk →
      recv contents (.header m :: rest) =
        .ok (.pytuple ((List.zipWith (fun s d => NdArray.mk s d) m.shapes ds).map
          PyVal.ndarray))) := by
  refine ⟨?_, ?_, ?_⟩
  · intro ht hs
    simp only [recv]
    rw [ht]
    cases hms : m.shapes with
    | nil => simp
    | cons s ss =>
        cases ss with
        | nil => rw [hms] at hs; simp at hs
        | cons s2 ss2 => simp
  · rintro shape d rest2 ht hms rfl hd
    have hr : mpiRecvInto (numpyEmpty contents shape.prod) d = .ok d :=
      mpiRecvInto_exact _ _ (by simp [numpyEmpty_length, hd])
    simp only [recv]
    rw [ht, hms]
    simp [hr, reshape, hd]
  · rintro ds ht hm rfl
    have hrecv := recvArrays_matched contents m.shapes ds [] hm
    rw [List.append_nil] at hrecv
    simp only [recv]
    rw [ht]
    simp [hrecv]

theorem c9_witness :
    recv (fun _ _ => 0) [.header ⟨false, 1, [1], [[2]]⟩, .bulk [5, 6]] =
      .ok (.ndarray ⟨[2], [5, 6]⟩) ∧
    recv (fun _ _ => 0) [.header ⟨false, 2, [1, 1], [[1], [1]]⟩] =
      .error .assertionError ∧
    recv (fun _ _ => 0) [.header ⟨true, 1, [1], [[2]]⟩, .bulk [7, 8]] =
      .ok (.pytuple [.ndarray ⟨[2], [7, 8]⟩]) :=
  ⟨(c9_recv_structure (fun _ _ => 0) ⟨false, 1, [1], [[2]]⟩ [.bulk [5, 6]]).2.1
      [2] [5, 6] [] rfl rfl rfl (by decide),
   (c9_recv_structure (fun _ _ => 0) ⟨false, 2, [1, 1], [[1], [1]]⟩ []).1 rfl (by decide),
   (c9_recv_structure (fun _ _ => 0) ⟨true, 1, [1], [[2]]⟩ [.bulk [7, 8]]).2.2
      [[7, 8]] rfl (by decide) rfl⟩

/-- C4 counterexample: the receive buffer is NOT freshly zeroed.  `recv`
allocates with `numpy.empty`, whose contents are unspecified, so the garbage
in the fresh allocation is observable: when a declared shape `(2,)` is
answered by a one-element bulk transfer, the second element of the returned
array is whatever was in the uninitialized buffer (here 7 under one
legitimate `numpy.empty` behaviour, 0 under another) — a zeroing
allocation would force 0. -/
theorem c4_counterexample_buffer_not_zeroed :
    recv (fun _ _ => 7) [.header ⟨false, 1, [1], [[2]]⟩, .bulk [5]] =
      .ok (.ndarray ⟨[2], [5, 7]⟩) ∧
    recv (fun _ _ => 0) [.header ⟨false, 1, [1], [[2]]⟩, .bulk [5]] =
      .ok (.ndarray ⟨[2], [5, 0]⟩) ∧
    NdArray.mk [2] [5, 7] ≠ NdArray.mk [2] [5, 0] :=
  ⟨rfl, rfl, by decide⟩

/-- C4 (amended): for each array declared in the received descriptor, in
descriptor order, `recv` allocates a fresh flat buffer of length
`prod(shape)` with the protocol's fixed element type but UNSPECIFIED
contents (`numpy.empty`, not zeroed), receives one bulk transfer into it and
reshapes it to the declared shape; when every bulk transfer has exactly the
declared size the result is independent of the allocator's garbage. -/
theorem c4_recv_alloc_receive_reshape (contents : Nat → Nat → F32)
    (ss : List (List Nat)) (ds : List (List F32)) (rest : List Packet)
    (h : matchedb ss ds = true) :
    recvArrays contents ss (ds.map Packet.bulk ++ rest) =
      .ok (List.zipWith (fun s d => NdArray.mk s d) ss ds, rest) :=
  recvArrays_matched contents ss ds rest h

theorem c4_witness :
    matchedb [[2], [1, 2]] [[4, 5], [6, 7]] = true ∧
    recvArrays (fun _ _ => 9) [[2], [1, 2]]
        ([[4, 5], [6, 7]].map Packet.bulk ++ []) =
      .ok ([⟨[2], [4, 5]⟩, ⟨[1, 2], [6, 7]⟩], []) :=
  ⟨by decide,
   c4_recv_alloc_receive_reshape (fun _ _ => 9) [[2], [1, 2]] [[4, 5], [6, 7]] []
     (by decide)⟩

/-- C8: whenever `send` completes, its transport trace is the descriptor
through the header channel strictly first, followed by exactly one bulk
transfer per declared array (`narr` of them), in descriptor order (the
declared shapes are the shapes of the bulk-transferred arrays, in order;
a single array is sent as a one-element sequence), every operation addressed
to the same destination rank and tag. -/
theorem c8_header_then_bulks (obj : PyVal) (dest tag : Nat)
    (h : (send obj dest tag).2 = .ok ()) :
    ∃ (m : MessageType) (arrs : List NdArray),
      mkMessageType obj = .ok m ∧
      (send obj dest tag).1 =
        ⟨.header m, dest, tag⟩ :: arrs.map (fun a => ⟨.bulk a.data, dest, tag⟩) ∧
      arrs.length = m.narr ∧
      m.shapes = arrs.map NdArray.shape := by
  cases hm : mkMessageType obj with
  | error e =>
      rw [show send obj dest tag = ([], .error e) by simp [send, hm]] at h
      exact Except.noConfusion h
  | ok m =>
      rcases mkMessageType_ok_inv obj m hm with ⟨a, rfl, rfl⟩ | ⟨xs, hiter, hall, rfl⟩
      · refine ⟨_, [a], hm, ?_, rfl, rfl⟩
        simp [send, hm, sendArrays, bulkOf]
      · have hs := sendArrays_all_arrays dest tag xs hall
        refine ⟨{ is_tuple := true, narr := xs.length,
                  ndims := xs.map fun x => (arrOf x).ndim,
                  shapes := xs.map fun x => (arrOf x).shape },
                xs.map arrOf, rfl, ?_, by simp,
                by simp [List.map_map, Function.comp_def]⟩
        simp [send, hm, hs, hiter, List.map_map]

theorem c8_witness :
    (send (.pytuple [.ndarray ⟨[3], [1, 2, 3]⟩, .ndarray ⟨[2, 2], [4, 5, 6, 7]⟩]) 1 9).2 =
      .ok () ∧
    ∃ (m : MessageType) (arrs : List NdArray),
      mkMessageType (.pytuple [.ndarray ⟨[3], [1, 2, 3]⟩, .ndarray ⟨[2, 2], [4, 5, 6, 7]⟩]) =
        .ok m ∧
      (send (.pytuple [.ndarray ⟨[3], [1, 2, 3]⟩, .ndarray ⟨[2, 2], [4, 5, 6, 7]⟩]) 1 9).1 =
        ⟨.header m, 1, 9⟩ :: arrs.map (fun a => ⟨.bulk a.data, 1, 9⟩) ∧
      arrs.length = m.narr ∧
      m.shapes = arrs.map NdArray.shape :=
  ⟨rfl,
   c8_header_then_bulks (.pytuple [.ndarray ⟨[3], [1, 2, 3]⟩, .ndarray ⟨[2, 2], [4, 5, 6, 7]⟩])
     1 9 rfl⟩

/-- C1: round trip.  For any payload that is a single rectangular array or a
tuple of rectangular arrays (elements of the protocol's fixed float32 type),
a `recv` matched to the channel content produced by `send` returns exactly
the payload back: same structure (single array vs tuple of the same length),
same per-array shapes, identical element values — for every possible
`numpy.empty` garbage. -/
theorem c1_roundtrip (contents : Nat → Nat → F32) (obj : PyVal) (dest tag : Nat)
    (h : validPayloadb obj = true) :
    recv contents ((send obj dest tag).1.map Op.packet) = .ok obj := by
  cases obj with
  | pyint n => simp [validPayloadb] at h
  | pystr s => simp [validPayloadb] at h
  | ndarray a =>
      have hl : a.data.length = a.shape.prod := by simpa [validPayloadb] using h
      have hr : mpiRecvInto (numpyEmpty contents a.shape.prod) a.data = .ok a.data :=
        mpiRecvInto_exact _ _ (by simp [numpyEmpty_length, hl])
      simp [send, mkMessageType, sendArrays, bulkOf, recv, hr, reshape, hl]
  | pytuple xs =>
      have hall : ∀ x ∈ xs, validArrayb x = true := by
        simpa [validPayloadb, List.all_eq_true] using h
      have harr : ∀ x ∈ xs, isNdArrayb x = true :=
        fun x hx => validArrayb_isNdArrayb (hall x hx)
      have hmk : mkMessageType (.pytuple xs) =
          .ok { is_tuple := true, narr := xs.length,
                ndims := xs.map fun x => (arrOf x).ndim,
                shapes := xs.map fun x => (arrOf x).shape } :=
        mkTupleType_all_arrays xs harr
      have hs := sendArrays_all_arrays dest tag xs harr
      have htrace : (send (.pytuple xs) dest tag).1.map Op.packet =
          Packet.header { is_tuple := true, narr := xs.length,
                          ndims := xs.map fun x => (arrOf x).ndim,
                          shapes := xs.map fun x => (arrOf x).shape } ::
            (xs.map fun x => Packet.bulk (arrOf x).data) := by
        simp [send, hmk, hs, pyIter]
      have hrecv2 : recvArrays contents (xs.map fun x => (arrOf x).shape)
          (xs.map fun x => Packet.bulk (arrOf x).data) = .ok (xs.map arrOf, []) := by
        have hm := recvArrays_matched contents (xs.map fun x => (arrOf x).shape)
          (xs.map fun x => (arrOf x).data) [] (matchedb_of_valid xs hall)
        rw [List.append_nil, zipWith_mk_arrOf, List.map_map] at hm
        exact hm
      rw [htrace]
      simp only [recv]
      simp [hrecv2, map_ndarray_arrOf xs harr]

theorem c1_witness :
    validPayloadb (.pytuple [.ndarray ⟨[3], [1, 2, 3]⟩, .ndarray ⟨[2, 2], [4, 5, 6, 7]⟩]) =
      true ∧
    recv (fun _ _ => 0)
        ((send (.pytuple [.ndarray ⟨[3], [1, 2, 3]⟩, .ndarray ⟨[2, 2], [4, 5, 6, 7]⟩])
            1 0).1.map Op.packet) =
      .ok (.pytuple [.ndarray ⟨[3], [1, 2, 3]⟩, .ndarray ⟨[2, 2], [4, 5, 6, 7]⟩]) :=
  ⟨by decide,
   c1_roundtrip (fun _ _ => 0)
     (.pytuple [.ndarray ⟨[3], [1, 2, 3]⟩, .ndarray ⟨[2, 2], [4, 5, 6, 7]⟩]) 1 0 (by decide)⟩
